import Mathlib

/-!
Verification development for the para-inheritance repository: a policy
compiler that turns parent-chosen options (USD limit, allowlist, chain
restriction) into a Para Policy document, introspection functions over
such documents, and transaction evaluators deciding ALLOW/DENY.

The repository contains several evolving variants of the compiler and
evaluator.  This file embeds, as separate namespaces:

- `Builder`     : src/src/utils/paraPolicyBuilder.ts (client-side builder,
                  introspection and validateAgainstParaPolicy);
- `Builder003`  : the first file of src/unnamed/part_003 (builder with
                  allowlist support, DENY SMART_CONTRACT scope, and a
                  two-pass evaluator that scans DENY permissions first);
- `Server005`   : the two server endpoints in src/unnamed/part_005
                  (server-side buildParaPolicy stamping Date.now, the
                  server validateTransaction, getUsdLimitFromPolicy);
- `Enforcement` : src/src/utils/permissionEnforcement.ts (client-side
                  validateTransaction over the PermissionPolicy record).

Modelling conventions: JavaScript numbers are embedded as rationals;
parseFloat is embedded as a parser returning Option (none plays the role
of NaN, and comparisons against none follow the JS NaN comparison rules);
exponent and hexadecimal float forms are not modelled.  String template
interpolation such as toFixed is rendered with toString; no theorem below
depends on the rendering of an interpolated number.  The impure call
Date.now() in the part_005 builder is made an explicit argument `now`.
-/

namespace Core

/-- Effect of a permission: ALLOW or DENY (canonical Para schema). -/
inductive Effect
  | ALLOW
  | DENY
deriving DecidableEq, Repr

/-- Transaction / permission action type (canonical Para schema). -/
inductive ActionType
  | TRANSFER
  | SIGN_MESSAGE
  | SMART_CONTRACT
  | DEPLOY_CONTRACT
deriving DecidableEq, Repr

/-- Comparator of a STATIC condition (canonical Para schema). -/
inductive Comparator
  | EQUALS
  | GREATER_THAN
  | LESS_THAN
  | INCLUDED_IN
  | NOT_INCLUDED_IN
deriving DecidableEq, Repr

/-- Reference value of a condition: number, string, or string array
(the TypeScript type is number | string | string[]). -/
inductive Reference
  | num (q : ℚ)
  | str (s : String)
  | strList (l : List String)
deriving DecidableEq, Repr

/-- ParaPolicyCondition: type is the literal STATIC in every source
occurrence; resource is a plain string (VALUE, TO_ADDRESS, ...). -/
structure Condition where
  type : String
  resource : String
  comparator : Comparator
  reference : Reference
deriving DecidableEq, Repr

/-- ParaPermission of the canonical schema. -/
structure Permission where
  effect : Effect
  chainId : String
  type : ActionType
  conditions : List Condition
deriving DecidableEq, Repr

/-- ParaScope of the canonical schema. -/
structure Scope where
  name : String
  description : String
  required : Bool
  permissions : List Permission
deriving DecidableEq, Repr

/-- ParaPolicyJSON of the canonical schema. -/
structure Policy where
  partnerId : String
  validFrom : Option ℤ
  validTo : Option ℤ
  scopes : List Scope
deriving DecidableEq, Repr

/-- Candidate transaction as consumed by the evaluators: an optional
recipient, a chain id, an optional USD value and a type.  The source
field name to is a reserved word in Lean, hence the field toAddr. -/
structure Tx where
  toAddr : Option String
  chainId : String
  valueUsd : Option ℚ
  type : ActionType
deriving DecidableEq, Repr

/-- Validation result of the client evaluators: allowed flag and an
optional reason string. -/
structure VResult where
  allowed : Bool
  reason : Option String
deriving DecidableEq, Repr

/-- Base chain id constant from src/src/types/permissions.ts. -/
def BASE_CHAIN_ID : String := "8453"

/-- Full chain list from src/src/types/permissions.ts (identical to
ALL_CHAINS in part_005). -/
def ALL_ALLOWED_CHAINS : List String := ["8453", "1", "137", "42161", "10"]

/-- Default partner id (the environment fallback value used by every
variant). -/
def PARTNER_ID : String := "para-allowance-wallet"

/-- Lowercase of a string, mapping each character (JS toLowerCase on the
ASCII addresses this system handles). -/
def jsToLower (s : String) : String := String.mk (s.data.map Char.toLower)

/-- Truthiness of an optional string in JS: undefined and the empty
string are falsy. -/
def jsStrTruthy : Option String → Bool
  | none => false
  | some s => !s.isEmpty

/-- Digit-run parser: consumes leading decimal digits, returning the
accumulated value, the number of digits consumed, and the rest. -/
def parseDigitsAux : List Char → ℕ → ℕ → ℕ × ℕ × List Char
  | [], acc, k => (acc, k, [])
  | c :: rest, acc, k =>
    if c.isDigit then parseDigitsAux rest (10 * acc + (c.toNat - 48)) (k + 1)
    else (acc, k, c :: rest)

/-- Unsigned decimal float parser: digits with an optional fractional
part; none when no digit is present (the NaN case). -/
def jsParseUnsigned (cs : List Char) : Option ℚ :=
  let r := parseDigitsAux cs 0 0
  match r.2.2 with
  | '.' :: r2 =>
    let f := parseDigitsAux r2 0 0
    if r.2.1 = 0 ∧ f.2.1 = 0 then none
    else some ((r.1 : ℚ) + (f.1 : ℚ) / (10 : ℚ) ^ f.2.1)
  | _ => if r.2.1 = 0 then none else some ((r.1 : ℚ))

/-- JS parseFloat on a string: optional sign after leading whitespace,
then an unsigned decimal; none models NaN. -/
def jsParseFloat (s : String) : Option ℚ :=
  match s.data.dropWhile Char.isWhitespace with
  | '-' :: rest => (jsParseUnsigned rest).map (fun q => -q)
  | '+' :: rest => jsParseUnsigned rest
  | cs => jsParseUnsigned cs

/-- Rendering of a number as a string (JS String(n)); theorems below do
not depend on the exact rendering. -/
def jsNumToString (q : ℚ) : String := toString q

/-- JS String(reference): identity on strings, rendering on numbers,
comma join on arrays. -/
def jsStringOfReference : Reference → String
  | .num q => jsNumToString q
  | .str s => s
  | .strList l => String.intercalate "," l

/-- The numeric coercion the sources apply to a condition reference:
typeof reference is number ? reference : parseFloat(String(reference)).
The none result plays the role of NaN. -/
def refToNum : Reference → Option ℚ
  | .num q => some q
  | r => jsParseFloat (jsStringOfReference r)

/-- JS comparison v >= limit where limit may be NaN (none): any
comparison against NaN is false. -/
def jsGeLim (v : ℚ) : Option ℚ → Bool
  | some l => decide (l ≤ v)
  | none => false

/-- JS comparison v <= limit where limit may be NaN (none). -/
def jsLeLim (v : ℚ) : Option ℚ → Bool
  | some l => decide (v ≤ l)
  | none => false

/-- JS strict inequality v !== limit where limit may be NaN (none):
NaN is different from every number, so the result is true. -/
def jsNeLim (v : ℚ) : Option ℚ → Bool
  | some l => decide (v ≠ l)
  | none => true

/-- The list a reference is wrapped into by Array.isArray(reference) ?
reference : [reference]: raw JS values, so a number entry can never be
strictly equal to a string under includes. -/
def refAsList : Reference → List Reference
  | .strList l => l.map .str
  | r => [r]

/-- Name of an action type as interpolated into reason strings. -/
def actionName : ActionType → String
  | .TRANSFER => "TRANSFER"
  | .SIGN_MESSAGE => "SIGN_MESSAGE"
  | .SMART_CONTRACT => "SMART_CONTRACT"
  | .DEPLOY_CONTRACT => "DEPLOY_CONTRACT"

/-- All permissions of a document in scope order, as traversed by the
nested for loops of every evaluator variant. -/
def allPermissions (policy : Policy) : List Permission :=
  (policy.scopes.map Scope.permissions).flatten

/-- First permission matching the transaction chain and type, in
document order; the single-pass evaluators decide on this permission. -/
def firstMatch : List Permission → Tx → Option Permission
  | [], _ => none
  | p :: rest, tx =>
    if p.chainId = tx.chainId ∧ p.type = tx.type then some p
    else firstMatch rest tx

/-- Rendering of a possibly-NaN limit inside a reason string. -/
def limToString : Option ℚ → String
  | some l => jsNumToString l
  | none => "NaN"

end Core

namespace Builder

open Core

/-- PolicyBuildOptions of src/src/utils/paraPolicyBuilder.ts. -/
structure PolicyBuildOptions where
  name : String
  usdLimit : Option ℚ
  allowedChains : Option (List String)
  restrictToBase : Option Bool
  partnerId : Option String
  validFrom : Option ℤ
  validTo : Option ℤ
deriving DecidableEq, Repr

/-- buildTransferPermission (src/src/utils/paraPolicyBuilder.ts, lines
51-73): an ALLOW TRANSFER permission carrying a VALUE LESS_THAN
condition iff usdLimit is defined and strictly positive. -/
def buildTransferPermission (chainId : String) (usdLimit : Option ℚ) :
    Permission :=
  let conditions : List Condition :=
    match usdLimit with
    | some l =>
      if 0 < l then [⟨"STATIC", "VALUE", .LESS_THAN, .num l⟩] else []
    | none => []
  { effect := .ALLOW, chainId := chainId, type := .TRANSFER,
    conditions := conditions }

/-- buildSignMessagePermission (lines 78-85). -/
def buildSignMessagePermission (chainId : String) : Permission :=
  { effect := .ALLOW, chainId := chainId, type := .SIGN_MESSAGE,
    conditions := [] }

/-- buildDenyDeployPermission (lines 90-97). -/
def buildDenyDeployPermission (chainId : String) : Permission :=
  { effect := .DENY, chainId := chainId, type := .DEPLOY_CONTRACT,
    conditions := [] }

/-- Chain resolution of buildParaPolicy (lines 113-115): restrictToBase
truthy gives the Base singleton, else a non-empty allowedChains, else
the full default chain set. -/
def allowedChainsOf (options : PolicyBuildOptions) : List String :=
  if options.restrictToBase = some true then [BASE_CHAIN_ID]
  else
    match options.allowedChains with
    | some cs => if cs.isEmpty then ALL_ALLOWED_CHAINS else cs
    | none => ALL_ALLOWED_CHAINS

/-- Transfer scope description (lines 133-135); options.usdLimit is
tested for JS truthiness, so a zero limit is falsy. -/
def transferDescription (options : PolicyBuildOptions) : String :=
  match options.usdLimit with
  | some l =>
    if l ≠ 0 then
      "Allow sending funds up to $" ++ jsNumToString l ++
        " USD per transaction"
    else "Allow sending funds"
  | none => "Allow sending funds"

/-- Chain description suffix (lines 137-139). -/
def chainDescription (options : PolicyBuildOptions) : String :=
  if options.restrictToBase = some true then " on Base"
  else
    " on " ++ toString (allowedChainsOf options).length ++ " chain" ++
      (if 1 < (allowedChainsOf options).length then "s" else "")

/-- Resolution of options.partnerId || PARTNER_ID: an empty string is
falsy in JS, so it also falls back to the default. -/
def partnerIdOf (options : PolicyBuildOptions) : String :=
  match options.partnerId with
  | some s => if s.isEmpty then PARTNER_ID else s
  | none => PARTNER_ID

/-- buildParaPolicy (src/src/utils/paraPolicyBuilder.ts, lines 111-169):
transfer, sign_messages, and deny_deploy scopes over the resolved
chains; validFrom and validTo are passed through from the options. -/
def buildParaPolicy (options : PolicyBuildOptions) : Policy :=
  let allowedChains := allowedChainsOf options
  let transferPermissions :=
    allowedChains.map (fun chainId =>
      buildTransferPermission chainId options.usdLimit)
  let signMessagePermissions := allowedChains.map buildSignMessagePermission
  let denyDeployPermissions := allowedChains.map buildDenyDeployPermission
  { partnerId := partnerIdOf options,
    validFrom := options.validFrom,
    validTo := options.validTo,
    scopes :=
      [ { name := "transfer",
          description := transferDescription options ++
            chainDescription options,
          required := true,
          permissions := transferPermissions },
        { name := "sign_messages",
          description := "Allow signing messages for verification" ++
            chainDescription options,
          required := false,
          permissions := signMessagePermissions },
        { name := "deny_deploy",
          description := "Block contract deployment for security",
          required := true,
          permissions := denyDeployPermissions } ] }

/-- getAllowedChainsFromPolicy (lines 181-193): chain ids of ALLOW
permissions, first occurrence order, deduplicated (the JS Set).
The same function text also appears in part_003 and part_005. -/
def getAllowedChainsFromPolicy (policy : Policy) : List String :=
  (allPermissions policy).foldl
    (fun chains p =>
      if p.effect = .ALLOW then
        (if p.chainId ∈ chains then chains else chains ++ [p.chainId])
      else chains)
    []

/-- getUsdLimitFromPolicy (src/src/utils/paraPolicyBuilder.ts, lines
198-221; the part_003 copy at lines 213-239 is textually identical):
running minimum over the numeric values of VALUE LESS_THAN or EQUALS
conditions of ALLOW TRANSFER permissions, skipping NaN coercions. -/
def getUsdLimitFromPolicy (policy : Policy) : Option ℚ :=
  (allPermissions policy).foldl
    (fun minLimit p =>
      if p.type = .TRANSFER ∧ p.effect = .ALLOW then
        p.conditions.foldl
          (fun m c =>
            if c.resource = "VALUE" ∧
                (c.comparator = .LESS_THAN ∨ c.comparator = .EQUALS) then
              match refToNum c.reference with
              | some v =>
                match m with
                | none => some v
                | some cur => if v < cur then some v else some cur
              | none => m
            else m)
          minLimit
      else minLimit)
    none

/-- VALUE condition block of validateAgainstParaPolicy (lines 256-274),
entered only when tx.valueUsd is present; LESS_THAN fails at or above
the limit, EQUALS fails off the exact value. -/
def checkValueCondition (condition : Condition) (valueUsd : ℚ) :
    Option VResult :=
  if condition.resource = "VALUE" then
    let limit := refToNum condition.reference
    if condition.comparator = .LESS_THAN ∧ jsGeLim valueUsd limit then
      some ⟨false,
        some ("Transaction value $" ++ jsNumToString valueUsd ++
          " exceeds the $" ++ limToString limit ++ " USD limit")⟩
    else if condition.comparator = .EQUALS ∧ jsNeLim valueUsd limit then
      some ⟨false,
        some ("Transaction value must equal $" ++ limToString limit ++
          " USD")⟩
    else none
  else none

/-- TO_ADDRESS condition block (lines 277-296), entered only when tx.to
is truthy; the recipient is lowercased, the reference entries are
compared exactly as stored. -/
def checkAddressCondition (condition : Condition) (toAddr : String) :
    Option VResult :=
  if condition.resource = "TO_ADDRESS" then
    let allowedAddresses := refAsList condition.reference
    if condition.comparator = .INCLUDED_IN ∧
        Reference.str (jsToLower toAddr) ∉ allowedAddresses then
      some ⟨false, some "Recipient address is not in the allowed list"⟩
    else if condition.comparator = .NOT_INCLUDED_IN ∧
        Reference.str (jsToLower toAddr) ∈ allowedAddresses then
      some ⟨false, some "Recipient address is blocked"⟩
    else none
  else none

/-- One iteration of the condition loop of validateAgainstParaPolicy:
the VALUE block then the TO_ADDRESS block, each guarded by presence of
its transaction input; some r is the early return of a denial. -/
def checkCondition (condition : Condition) (tx : Tx) : Option VResult :=
  match
    (match tx.valueUsd with
     | some v => checkValueCondition condition v
     | none => none)
  with
  | some r => some r
  | none =>
    match tx.toAddr with
    | some a =>
      if !a.isEmpty then checkAddressCondition condition a
      else none
    | none => none

/-- Condition loop of the matched ALLOW permission: first failing
condition decides, otherwise allowed (lines 255-300). -/
def evalConditions : List Condition → Tx → VResult
  | [], _ => ⟨true, none⟩
  | c :: rest, tx =>
    match checkCondition c tx with
    | some r => r
    | none => evalConditions rest tx

/-- Denial result of a matching DENY permission (lines 246-251). -/
def denyResult (tx : Tx) : VResult :=
  ⟨false, some ("Action \"" ++ actionName tx.type ++
    "\" is denied by policy")⟩

/-- The nested permission loops of validateAgainstParaPolicy (lines
239-304): the first permission matching chain and type decides, DENY
rejecting and ALLOW evaluating its conditions. -/
def decideOnPermissions : List Permission → Tx → Option VResult
  | [], _ => none
  | p :: rest, tx =>
    if p.chainId = tx.chainId ∧ p.type = tx.type then
      (if p.effect = .DENY then some (denyResult tx)
       else some (evalConditions p.conditions tx))
    else decideOnPermissions rest tx

/-- validateAgainstParaPolicy (src/src/utils/paraPolicyBuilder.ts,
lines 229-321). -/
def validateAgainstParaPolicy (policy : Policy) (tx : Tx) : VResult :=
  match decideOnPermissions (allPermissions policy) tx with
  | some r => r
  | none =>
    let allowedChains := getAllowedChainsFromPolicy policy
    if tx.chainId ∉ allowedChains then
      ⟨false,
        some ("Chain " ++
          (if tx.chainId = BASE_CHAIN_ID then "Base"
           else "chain " ++ tx.chainId) ++
          " is not allowed by this policy")⟩
    else
      ⟨false,
        some ("No permission found for action \"" ++ actionName tx.type ++
          "\" on chain " ++ tx.chainId)⟩

end Builder

namespace Builder003

open Core

/-- PolicyBuildOptions of the part_003 builder (first file of
src/unnamed/part_003). -/
structure PolicyBuildOptions where
  name : String
  usdLimit : Option ℚ
  restrictToBase : Option Bool
  allowedAddresses : Option (List String)
  partnerId : Option String
  validFrom : Option ℤ
  validTo : Option ℤ
deriving DecidableEq, Repr

/-- buildTransferPermission (part_003, lines 57-90): ALLOW TRANSFER with
a VALUE LESS_THAN condition iff usdLimit is defined and strictly
positive, then a TO_ADDRESS INCLUDED_IN condition over the lowercased
allowlist iff it is non-empty.  No validation of either input occurs. -/
def buildTransferPermission (chainId : String) (usdLimit : Option ℚ)
    (allowedAddresses : Option (List String)) : Permission :=
  let conditions : List Condition :=
    (match usdLimit with
     | some l =>
       if 0 < l then [⟨"STATIC", "VALUE", .LESS_THAN, .num l⟩] else []
     | none => []) ++
    (match allowedAddresses with
     | some addrs =>
       if ¬addrs.isEmpty then
         [⟨"STATIC", "TO_ADDRESS", .INCLUDED_IN,
           .strList (addrs.map jsToLower)⟩]
       else []
     | none => [])
  { effect := .ALLOW, chainId := chainId, type := .TRANSFER,
    conditions := conditions }

/-- buildDenyDeployPermission (part_003, lines 96-103). -/
def buildDenyDeployPermission (chainId : String) : Permission :=
  { effect := .DENY, chainId := chainId, type := .DEPLOY_CONTRACT,
    conditions := [] }

/-- buildDenySmartContractPermission (part_003, lines 109-116). -/
def buildDenySmartContractPermission (chainId : String) : Permission :=
  { effect := .DENY, chainId := chainId, type := .SMART_CONTRACT,
    conditions := [] }

/-- Value description fragment (part_003, lines 139-141), testing
usdLimit for JS truthiness. -/
def valueDesc (options : PolicyBuildOptions) : String :=
  match options.usdLimit with
  | some l =>
    if l ≠ 0 then "up to $" ++ jsNumToString l ++ " USD per transaction"
    else "with no value limit"
  | none => "with no value limit"

/-- Address description fragment (part_003, lines 142-144). -/
def addressDesc (options : PolicyBuildOptions) : String :=
  match options.allowedAddresses with
  | some addrs =>
    if ¬addrs.isEmpty then
      " to " ++ toString addrs.length ++ " allowed recipient(s)"
    else ""
  | none => ""

/-- Resolution of options.partnerId || PARTNER_ID. -/
def partnerIdOf (options : PolicyBuildOptions) : String :=
  match options.partnerId with
  | some s => if s.isEmpty then PARTNER_ID else s
  | none => PARTNER_ID

/-- buildParaPolicy (part_003, lines 134-186): the chain is fixed to
Base; scopes allowance_transfer, block_deploys and block_smart_contracts
are all required; validFrom and validTo pass through from the options. -/
def buildParaPolicy (options : PolicyBuildOptions) : Policy :=
  let chainId := BASE_CHAIN_ID
  { partnerId := partnerIdOf options,
    validFrom := options.validFrom,
    validTo := options.validTo,
    scopes :=
      [ { name := "allowance_transfer",
          description := "Allow sending funds on Base " ++
            valueDesc options ++ addressDesc options,
          required := true,
          permissions :=
            [buildTransferPermission chainId options.usdLimit
              options.allowedAddresses] },
        { name := "block_deploys",
          description := "Block all contract deployments for security",
          required := true,
          permissions := [buildDenyDeployPermission chainId] },
        { name := "block_smart_contracts",
          description :=
            "Block all smart contract calls (transfers only)",
          required := true,
          permissions := [buildDenySmartContractPermission chainId] } ] }

/-- getUsdLimitFromPolicy of part_003 (lines 213-239) is textually
identical to the src variant, so it is embedded by the same function. -/
def getUsdLimitFromPolicy : Policy → Option ℚ :=
  Builder.getUsdLimitFromPolicy

/-- getAllowedChainsFromPolicy of part_003 (lines 198-208), textually
identical to the src variant. -/
def getAllowedChainsFromPolicy : Policy → List String :=
  Builder.getAllowedChainsFromPolicy

/-- The list the part_003 TO_ADDRESS block compares against:
Array.isArray(reference) ? reference as string[] : [String(reference)].
Unlike the src variant it coerces a non-array reference to a string. -/
def refAsStrList (r : Reference) : List String :=
  match r with
  | .strList l => l
  | _ => [jsStringOfReference r]

/-- One iteration of the part_003 condition loop (lines 318-348): a
VALUE block handling only LESS_THAN, then a TO_ADDRESS block handling
only INCLUDED_IN; the recipient is lowercased, the stored entries are
compared as stored. -/
def checkCondition (condition : Condition) (tx : Tx) : Option VResult :=
  let valueCheck : Option VResult :=
    match tx.valueUsd with
    | some v =>
      if condition.resource = "VALUE" then
        let limit := refToNum condition.reference
        if condition.comparator = .LESS_THAN ∧ jsGeLim v limit then
          some ⟨false,
            some ("Transaction value $" ++ jsNumToString v ++
              " exceeds the $" ++ limToString limit ++ " USD limit")⟩
        else none
      else none
    | none => none
  match valueCheck with
  | some r => some r
  | none =>
    match tx.toAddr with
    | some a =>
      if !a.isEmpty then
        (if condition.resource = "TO_ADDRESS" then
          let allowedAddresses := refAsStrList condition.reference
          if condition.comparator = .INCLUDED_IN ∧
              jsToLower a ∉ allowedAddresses then
            some ⟨false,
              some "Recipient address is not in the allowed list"⟩
          else none
        else none)
      else none
    | none => none

/-- Condition loop of the matched ALLOW permission (part_003). -/
def evalConditions : List Condition → Tx → VResult
  | [], _ => ⟨true, none⟩
  | c :: rest, tx =>
    match checkCondition c tx with
    | some r => r
    | none => evalConditions rest tx

/-- Second pass of the part_003 evaluator: first matching ALLOW
permission has its conditions evaluated. -/
def findAllowAndCheck : List Permission → Tx → Option VResult
  | [], _ => none
  | p :: rest, tx =>
    if p.chainId = tx.chainId ∧ p.type = tx.type ∧ p.effect = .ALLOW then
      some (evalConditions p.conditions tx)
    else findAllowAndCheck rest tx

/-- validateAgainstParaPolicy (part_003, lines 284-369): a first pass
over every permission of every scope returns a denial on any matching
DENY permission, before any ALLOW permission is considered; only then
is the first matching ALLOW permission evaluated. -/
def validateAgainstParaPolicy (policy : Policy) (tx : Tx) : VResult :=
  match
    (allPermissions policy).find?
      (fun p =>
        decide (p.chainId = tx.chainId ∧ p.type = tx.type ∧
          p.effect = .DENY))
  with
  | some _ =>
    ⟨false, some ("Action \"" ++ actionName tx.type ++
      "\" is denied by policy")⟩
  | none =>
    match findAllowAndCheck (allPermissions policy) tx with
    | some r => r
    | none =>
      let allowedChains := getAllowedChainsFromPolicy policy
      if tx.chainId ∉ allowedChains then
        ⟨false, some ("Chain " ++ tx.chainId ++
          " is not allowed by this policy")⟩
      else
        ⟨false,
          some ("No permission found for action \"" ++
            actionName tx.type ++ "\" on chain " ++ tx.chainId)⟩

end Builder003

namespace Server005

open Core

/-- Result record of the part_005 server validateTransaction: allowed,
reason, and a condition tag. -/
structure VResult5 where
  allowed : Bool
  reason : Option String
  condition : Option String
deriving DecidableEq, Repr

/-- Build options consumed by the part_005 server buildParaPolicy. -/
structure BuildOptions where
  restrictToBase : Bool
  maxUsd : Option ℚ
  name : Option String
deriving DecidableEq, Repr

/-- Chain resolution of the server builder (part_005, line 123). -/
def allowedChainsOf (options : BuildOptions) : List String :=
  if options.restrictToBase then [BASE_CHAIN_ID] else ALL_ALLOWED_CHAINS

/-- buildParaPolicy (part_005, lines 118-191).  The source stamps
validFrom with Date.now(); that impure call is made the explicit
argument now, so the dependence of the output on the clock is visible
in the type. -/
def buildParaPolicy (options : BuildOptions) (now : ℤ) : Policy :=
  let allowedChains := allowedChainsOf options
  let transferPermissions := allowedChains.map (fun chainId =>
    let conditions : List Condition :=
      match options.maxUsd with
      | some l =>
        if 0 < l then [⟨"STATIC", "VALUE", .LESS_THAN, .num l⟩] else []
      | none => []
    { effect := .ALLOW, chainId := chainId, type := .TRANSFER,
      conditions := conditions })
  let signPermissions := allowedChains.map (fun chainId =>
    ({ effect := .ALLOW, chainId := chainId, type := .SIGN_MESSAGE,
       conditions := [] } : Permission))
  let denyDeployPermissions := allowedChains.map (fun chainId =>
    ({ effect := .DENY, chainId := chainId, type := .DEPLOY_CONTRACT,
       conditions := [] } : Permission))
  let limitDesc :=
    match options.maxUsd with
    | some l =>
      if l ≠ 0 then " up to $" ++ jsNumToString l ++ " USD" else ""
    | none => ""
  let chainDesc := if options.restrictToBase then " on Base" else ""
  { partnerId := PARTNER_ID,
    validFrom := some now,
    validTo := none,
    scopes :=
      [ { name := "transfer",
          description := "Allow sending funds" ++ limitDesc ++ chainDesc,
          required := true,
          permissions := transferPermissions },
        { name := "sign_messages",
          description := "Allow signing messages for verification",
          required := false,
          permissions := signPermissions },
        { name := "deny_deploy",
          description := "Block contract deployment for security",
          required := true,
          permissions := denyDeployPermissions } ] }

/-- getUsdLimitFromPolicy (part_005, lines 211-224): returns at the
first VALUE LESS_THAN condition of an ALLOW TRANSFER permission,
yielding its reference if it is a number and undefined otherwise;
EQUALS conditions are ignored and no minimum is taken. -/
def getUsdLimitFromPolicy (policy : Policy) : Option ℚ :=
  match
    (allPermissions policy).findSome?
      (fun p =>
        if p.type = .TRANSFER ∧ p.effect = .ALLOW then
          p.conditions.find?
            (fun c =>
              decide (c.resource = "VALUE" ∧ c.comparator = .LESS_THAN))
        else none)
  with
  | some c =>
    match c.reference with
    | .num q => some q
    | _ => none
  | none => none

/-- Display name of a chain (part_005 CHAIN_NAMES with the fallback
used for reasons). -/
def chainDisplay (chainId : String) : String :=
  if chainId = "8453" then "Base"
  else if chainId = "1" then "Ethereum"
  else if chainId = "137" then "Polygon"
  else if chainId = "42161" then "Arbitrum"
  else if chainId = "10" then "Optimism"
  else "chain " ++ chainId

/-- The lowercased list the part_005 TO_ADDRESS block compares against:
Array.isArray(reference) ? reference.map(toLowerCase) :
[String(reference).toLowerCase()]; both sides of the membership test are
lowercased in this variant. -/
def refAsLowerList (r : Reference) : List String :=
  match r with
  | .strList l => l.map jsToLower
  | _ => [jsToLower (jsStringOfReference r)]

/-- VALUE condition block of the part_005 loop (lines 581-609), entered
only when tx.valueUsd is present. -/
def checkValueCondition (condition : Condition) (v : ℚ) :
    Option VResult5 :=
  if condition.resource = "VALUE" then
    let limit := refToNum condition.reference
    if condition.comparator = .LESS_THAN ∧ jsGeLim v limit then
      some ⟨false,
        some ("Transaction value $" ++ jsNumToString v ++
          " exceeds the $" ++ limToString limit ++ " USD limit"),
        some "value_limit"⟩
    else if condition.comparator = .GREATER_THAN ∧ jsLeLim v limit then
      some ⟨false,
        some ("Transaction value $" ++ jsNumToString v ++
          " is below minimum $" ++ limToString limit ++ " USD"),
        some "value_minimum"⟩
    else if condition.comparator = .EQUALS ∧ jsNeLim v limit then
      some ⟨false,
        some ("Transaction value must equal $" ++ limToString limit ++
          " USD"),
        some "value_exact"⟩
    else none
  else none

/-- TO_ADDRESS condition block of the part_005 loop (lines 612-642),
entered only when tx.to is truthy; both the recipient and the stored
entries are lowercased in this variant. -/
def checkAddressCondition (condition : Condition) (a : String) :
    Option VResult5 :=
  if condition.resource = "TO_ADDRESS" then
    let addresses := refAsLowerList condition.reference
    let toAddress := jsToLower a
    if condition.comparator = .INCLUDED_IN ∧ toAddress ∉ addresses then
      some ⟨false,
        some "Recipient address is not in the allowed list",
        some "address_whitelist"⟩
    else if condition.comparator = .NOT_INCLUDED_IN ∧
        toAddress ∈ addresses then
      some ⟨false, some "Recipient address is blocked",
        some "address_blacklist"⟩
    else if condition.comparator = .EQUALS ∧
        some toAddress ≠ addresses.head? then
      some ⟨false,
        some "Recipient address does not match required address",
        some "address_exact"⟩
    else none
  else none

/-- One iteration of the part_005 condition loop (lines 579-643). -/
def checkCondition (condition : Condition) (tx : Tx) : Option VResult5 :=
  match
    (match tx.valueUsd with
     | some v => checkValueCondition condition v
     | none => none)
  with
  | some r => some r
  | none =>
    match tx.toAddr with
    | some a =>
      if !a.isEmpty then checkAddressCondition condition a
      else none
    | none => none

/-- Condition loop of the matched ALLOW permission (part_005). -/
def evalConditions : List Condition → Tx → VResult5
  | [], _ => ⟨true, none, none⟩
  | c :: rest, tx =>
    match checkCondition c tx with
    | some r => r
    | none => evalConditions rest tx

/-- Denial returned on a matching DENY permission (lines 569-575). -/
def denyResult (tx : Tx) : VResult5 :=
  ⟨false, some ("Action \"" ++ actionName tx.type ++
    "\" is denied by policy"), some "action_denied"⟩

/-- The nested permission loops of the part_005 validateTransaction
(lines 564-650): like the src evaluator, the first permission matching
chain and type decides. -/
def decideOnPermissions : List Permission → Tx → Option VResult5
  | [], _ => none
  | p :: rest, tx =>
    if p.chainId = tx.chainId ∧ p.type = tx.type then
      (if p.effect = .DENY then some (denyResult tx)
       else some (evalConditions p.conditions tx))
    else decideOnPermissions rest tx

/-- getAllowedChainsFromPolicy of part_005 (lines 539-549), textually
identical to the src variant. -/
def getAllowedChainsFromPolicy : Policy → List String :=
  Builder.getAllowedChainsFromPolicy

/-- validateTransaction (part_005, lines 554-669). -/
def validateTransaction (policy : Policy) (tx : Tx) : VResult5 :=
  match decideOnPermissions (allPermissions policy) tx with
  | some r => r
  | none =>
    let allowedChains := getAllowedChainsFromPolicy policy
    if tx.chainId ∉ allowedChains then
      ⟨false,
        some ("Chain " ++ chainDisplay tx.chainId ++
          " is not allowed by this policy. Allowed chains: " ++
          String.intercalate ", " (allowedChains.map chainDisplay)),
        some "chain_restriction"⟩
    else
      ⟨false,
        some ("No permission found for action \"" ++ actionName tx.type ++
          "\" on chain " ++ tx.chainId),
        some "no_permission"⟩

end Server005

namespace Enforcement

open Core

/-- TransactionRequest of src/src/utils/permissionEnforcement.ts; the
recipient field (to in the source, a reserved word in Lean) is
mandatory in this interface. -/
structure TransactionRequest where
  toAddr : String
  value : Option String
  data : Option String
  chainId : String
  type : Option ActionType
  valueUsd : Option ℚ
deriving DecidableEq, Repr

/-- PermissionPolicy record (src/src/types/permissions.ts) as consumed
by the client-side enforcement; blocked actions are the plain strings
the enforcement code compares against. -/
structure PermissionPolicy where
  id : String
  name : String
  parentWalletAddress : String
  childWalletAddress : Option String
  blockedActions : List String
  usdLimit : Option ℚ
  restrictToBase : Bool
  allowedChains : List String
  isActive : Bool
  createdAt : ℤ
  updatedAt : ℤ
deriving DecidableEq, Repr

/-- TransactionValidation result record. -/
structure TransactionValidation where
  isAllowed : Bool
  rejectionReason : Option String
  blockedByRule : Option String
deriving DecidableEq, Repr

/-- detectTransactionType (permissionEnforcement.ts, lines 103-122):
explicit type wins; a falsy or 0x recipient means DEPLOY_CONTRACT;
non-trivial data means SMART_CONTRACT; otherwise TRANSFER. -/
def detectTransactionType (transaction : TransactionRequest) :
    ActionType :=
  match transaction.type with
  | some t => t
  | none =>
    if transaction.toAddr = "" ∨ transaction.toAddr = "0x" then
      .DEPLOY_CONTRACT
    else
      match transaction.data with
      | some d =>
        if ¬d.isEmpty ∧ d ≠ "0x" ∧ 2 < d.length then .SMART_CONTRACT
        else .TRANSFER
      | none => .TRANSFER

/-- The typeToAction map of checkBlockedActions (lines 132-136):
TRANSFER has no blocked-action name. -/
def typeToAction : ActionType → Option String
  | .DEPLOY_CONTRACT => some "DEPLOY_CONTRACT"
  | .SMART_CONTRACT => some "SMART_CONTRACT"
  | .SIGN_MESSAGE => some "SIGN_MESSAGE"
  | .TRANSFER => none

/-- checkBlockedActions (lines 127-148). -/
def checkBlockedActions (txType : ActionType)
    (blockedActions : List String) : TransactionValidation :=
  match typeToAction txType with
  | some action =>
    if action ∈ blockedActions then
      ⟨false,
        some (actionName txType ++ " transactions are blocked by policy"),
        some action⟩
    else ⟨true, none, none⟩
  | none => ⟨true, none, none⟩

/-- checkUsdLimit (lines 153-166): at or above the limit is rejected. -/
def checkUsdLimit (valueUsd usdLimit : ℚ) : TransactionValidation :=
  if usdLimit ≤ valueUsd then
    ⟨false,
      some ("Transaction value $" ++ jsNumToString valueUsd ++
        " exceeds USD limit of $" ++ jsNumToString usdLimit),
      some "USD_LIMIT_EXCEEDED"⟩
  else ⟨true, none, none⟩

/-- validateTransaction (permissionEnforcement.ts, lines 56-97): the
inactive-policy gate comes first, then the chain check, the
blocked-action check, and the USD limit check. -/
def validateTransaction (transaction : TransactionRequest)
    (policy : PermissionPolicy) : TransactionValidation :=
  if policy.isActive = false then
    ⟨false, some "Permission policy is not active",
      some "POLICY_INACTIVE"⟩
  else if transaction.chainId ∉ policy.allowedChains then
    ⟨false,
      some ("Chain " ++ transaction.chainId ++
        " is not in the allowed chains list. Allowed chains: " ++
        String.intercalate ", " policy.allowedChains),
      some "CHAIN_NOT_ALLOWED"⟩
  else
    let txType := detectTransactionType transaction
    let blockedActionCheck := checkBlockedActions txType
      policy.blockedActions
    if blockedActionCheck.isAllowed = false then blockedActionCheck
    else
      match policy.usdLimit, transaction.valueUsd with
      | some lim, some v =>
        if 0 < lim then
          (let usdCheck := checkUsdLimit v lim
           if usdCheck.isAllowed = false then usdCheck
           else ⟨true, none, none⟩)
        else ⟨true, none, none⟩
      | _, _ => ⟨true, none, none⟩

end Enforcement

namespace Spec

open Core

/-- Written from the spec sentence for the usdLimit extractor: the
numeric references of resource VALUE conditions with comparator
LESS_THAN or EQUALS across all ALLOW TRANSFER permissions (numeric via
the same coercion the code applies to a reference). -/
def valueLimits (policy : Policy) : List ℚ :=
  ((allPermissions policy).filter
    (fun p => decide (p.type = .TRANSFER ∧ p.effect = .ALLOW))).flatMap
    (fun p =>
      p.conditions.filterMap
        (fun c =>
          if c.resource = "VALUE" ∧
              (c.comparator = .LESS_THAN ∨ c.comparator = .EQUALS) then
            refToNum c.reference
          else none))

/-- Written from the spec sentence: the minimum numeric reference found,
or null when none exists. -/
def usdLimit (policy : Policy) : Option ℚ :=
  (valueLimits policy).min?

/-- Bool-valued characterisation of a required scope holding exactly one
DENY permission of the given type per chain of the given list, each with
an empty condition sequence. -/
def isDenyScopeFor (ty : ActionType) (chains : List String)
    (s : Scope) : Bool :=
  s.required &&
    decide (s.permissions.map Permission.chainId = chains) &&
    s.permissions.all
      (fun p => decide (p.effect = .DENY ∧ p.type = ty ∧
        p.conditions = []))

/-- Bool-valued characterisation of an optional sign_messages scope of
unconditioned ALLOW SIGN_MESSAGE permissions, one per chain of the
given list. -/
def isSignMessagesScopeFor (chains : List String) (s : Scope) : Bool :=
  decide (s.name = "sign_messages") && !s.required &&
    decide (s.permissions.map Permission.chainId = chains) &&
    s.permissions.all
      (fun p => decide (p.effect = .ALLOW ∧ p.type = .SIGN_MESSAGE ∧
        p.conditions = []))

end Spec

namespace Fixtures

open Core

/-- Document with a single scope holding the given permissions, used as
concrete input for the evaluator theorems. -/
def singleScopeDoc (perms : List Permission) : Policy :=
  { partnerId := PARTNER_ID, validFrom := none, validTo := none,
    scopes := [⟨"s", "test scope", true, perms⟩] }

/-- Unconditioned ALLOW TRANSFER permission on Base. -/
def allowTransferBase : Permission :=
  ⟨.ALLOW, "8453", .TRANSFER, []⟩

/-- Unconditioned DENY TRANSFER permission on Base. -/
def denyTransferBase : Permission :=
  ⟨.DENY, "8453", .TRANSFER, []⟩

/-- Document listing a matching ALLOW before a matching DENY for the
same chain and type pair. -/
def c1Doc : Policy := singleScopeDoc [allowTransferBase, denyTransferBase]

/-- Document listing the matching DENY first. -/
def c1DocDenyFirst : Policy :=
  singleScopeDoc [denyTransferBase, allowTransferBase]

/-- Base TRANSFER transaction with no recipient and no USD value. -/
def c1Tx : Tx := ⟨none, "8453", none, .TRANSFER⟩

/-- ALLOW TRANSFER permission on Base with a VALUE LESS_THAN 15
condition. -/
def c2Perm : Permission :=
  ⟨.ALLOW, "8453", .TRANSFER, [⟨"STATIC", "VALUE", .LESS_THAN, .num 15⟩]⟩

/-- Document whose only permission is ALLOW TRANSFER on Base with a
VALUE LESS_THAN 15 condition. -/
def c2Doc : Policy := singleScopeDoc [c2Perm]

/-- Transfer of exactly 15 USD. -/
def c2TxAt : Tx := ⟨none, "8453", some 15, .TRANSFER⟩

/-- Transfer of 14 USD, strictly below the limit. -/
def c2TxBelow : Tx := ⟨none, "8453", some 14, .TRANSFER⟩

/-- Concrete options for the src builder: restrict to Base, no limit. -/
def c3OptsB : Builder.PolicyBuildOptions :=
  ⟨"p", none, none, some true, none, none, none⟩

/-- Concrete options for the part_005 server builder. -/
def c3Opts5 : Server005.BuildOptions := ⟨true, none, none⟩

/-- Document whose only permission is ALLOW TRANSFER with a TO_ADDRESS
INCLUDED_IN condition over the given allowlist. -/
def allowlistDoc (chain : String) (refs : List String) : Policy :=
  singleScopeDoc
    [⟨.ALLOW, chain, .TRANSFER,
      [⟨"STATIC", "TO_ADDRESS", .INCLUDED_IN, .strList refs⟩]⟩]

/-- Allowlist document whose stored entry is uppercased. -/
def c4Doc : Policy := allowlistDoc "8453" ["0xABC"]

/-- Transaction to the recipient written exactly as on the allowlist. -/
def c4Tx : Tx := ⟨some "0xABC", "8453", none, .TRANSFER⟩

/-- Concrete options for the part_005 server builder used to exhibit
the hidden timestamp. -/
def c5Opts5 : Server005.BuildOptions := ⟨true, some 15, none⟩

/-- Document with two ALLOW TRANSFER permissions whose VALUE LESS_THAN
references are 20 and 5 in that order. -/
def c7Doc : Policy :=
  singleScopeDoc
    [⟨.ALLOW, "8453", .TRANSFER,
      [⟨"STATIC", "VALUE", .LESS_THAN, .num 20⟩]⟩,
     ⟨.ALLOW, "1", .TRANSFER,
      [⟨"STATIC", "VALUE", .LESS_THAN, .num 5⟩]⟩]

/-- ALLOW TRANSFER permission carrying both a VALUE condition and a
TO_ADDRESS condition. -/
def c8Perm : Permission :=
  ⟨.ALLOW, "8453", .TRANSFER,
    [⟨"STATIC", "VALUE", .LESS_THAN, .num 15⟩,
     ⟨"STATIC", "TO_ADDRESS", .INCLUDED_IN, .strList ["0xabc"]⟩]⟩

/-- Document whose ALLOW TRANSFER permission carries both a VALUE
condition and a TO_ADDRESS condition. -/
def c8Doc : Policy := singleScopeDoc [c8Perm]

/-- Transaction carrying neither a USD value nor a recipient. -/
def c8Tx : Tx := ⟨none, "8453", none, .TRANSFER⟩

/-- Concrete transaction request for the enforcement check. -/
def c9Tx : Enforcement.TransactionRequest :=
  ⟨"0xabc", none, none, "8453", none, some 5⟩

/-- Inactive permission policy record that would otherwise allow the
transaction. -/
def c9Policy : Enforcement.PermissionPolicy :=
  ⟨"id1", "policy", "0xparent", none, [], some 15, true, ["8453"],
    false, 0, 0⟩

end Fixtures

namespace MinFold

open Core

/-- Step of the running minimum maintained by getUsdLimitFromPolicy. -/
def accMin (m : Option ℚ) (v : ℚ) : Option ℚ :=
  match m with
  | none => some v
  | some cur => if v < cur then some v else some cur

/-- The numeric value the inner loop of getUsdLimitFromPolicy extracts
from one condition, none when the condition is not a LESS_THAN or
EQUALS VALUE condition or its reference coerces to NaN. -/
def extractValue (c : Condition) : Option ℚ :=
  if c.resource = "VALUE" ∧
      (c.comparator = .LESS_THAN ∨ c.comparator = .EQUALS) then
    refToNum c.reference
  else none

end MinFold

section Lemmas

open Core

/-- The nested loops of the src evaluator decide on the first matching
permission. -/
theorem builder_decideOnPermissions_eq (ps : List Permission) (tx : Tx) :
    Builder.decideOnPermissions ps tx =
      (Core.firstMatch ps tx).map
        (fun p =>
          if p.effect = Effect.DENY then Builder.denyResult tx
          else Builder.evalConditions p.conditions tx) := by
  induction ps with
  | nil => rfl
  | cons p rest ih =>
    by_cases h : p.chainId = tx.chainId ∧ p.type = tx.type
    · simp only [Builder.decideOnPermissions, Core.firstMatch, if_pos h,
        Option.map_some']
      split <;> rfl
    · simp [Builder.decideOnPermissions, Core.firstMatch, h, ih]

/-- The nested loops of the part_005 evaluator decide on the first
matching permission. -/
theorem server005_decideOnPermissions_eq (ps : List Permission) (tx : Tx) :
    Server005.decideOnPermissions ps tx =
      (Core.firstMatch ps tx).map
        (fun p =>
          if p.effect = Effect.DENY then Server005.denyResult tx
          else Server005.evalConditions p.conditions tx) := by
  induction ps with
  | nil => rfl
  | cons p rest ih =>
    by_cases h : p.chainId = tx.chainId ∧ p.type = tx.type
    · simp only [Server005.decideOnPermissions, Core.firstMatch, if_pos h,
        Option.map_some']
      split <;> rfl
    · simp [Server005.decideOnPermissions, Core.firstMatch, h, ih]

/-- On a first match the src evaluator returns the denial or the
condition evaluation of that permission. -/
theorem builder_validate_eq_of_firstMatch (policy : Policy) (tx : Tx)
    (p : Permission)
    (h : Core.firstMatch (Core.allPermissions policy) tx = some p) :
    Builder.validateAgainstParaPolicy policy tx =
      (if p.effect = Effect.DENY then Builder.denyResult tx
       else Builder.evalConditions p.conditions tx) := by
  unfold Builder.validateAgainstParaPolicy
  rw [builder_decideOnPermissions_eq, h]
  rfl

/-- On a first match the part_005 evaluator returns the denial or the
condition evaluation of that permission. -/
theorem server005_validate_eq_of_firstMatch (policy : Policy) (tx : Tx)
    (p : Permission)
    (h : Core.firstMatch (Core.allPermissions policy) tx = some p) :
    Server005.validateTransaction policy tx =
      (if p.effect = Effect.DENY then Server005.denyResult tx
       else Server005.evalConditions p.conditions tx) := by
  unfold Server005.validateTransaction
  rw [server005_decideOnPermissions_eq, h]
  rfl

end Lemmas

section ConditionLemmas

open Core

/-- Every early return of the src VALUE block is a denial. -/
theorem builder_checkValueCondition_allowed (c : Condition) (v : ℚ)
    (r : VResult) (h : Builder.checkValueCondition c v = some r) :
    r.allowed = false := by
  unfold Builder.checkValueCondition at h
  dsimp only at h
  split_ifs at h
  all_goals
    first
      | exact Option.noConfusion h
      | (injection h with h2; subst h2; rfl)

/-- Every early return of the src TO_ADDRESS block is a denial. -/
theorem builder_checkAddressCondition_allowed (c : Condition) (a : String)
    (r : VResult) (h : Builder.checkAddressCondition c a = some r) :
    r.allowed = false := by
  unfold Builder.checkAddressCondition at h
  dsimp only at h
  split_ifs at h
  all_goals
    first
      | exact Option.noConfusion h
      | (injection h with h2; subst h2; rfl)

/-- Every early return of the src condition loop is a denial. -/
theorem builder_checkCondition_allowed (c : Condition) (tx : Tx)
    (r : VResult) (h : Builder.checkCondition c tx = some r) :
    r.allowed = false := by
  unfold Builder.checkCondition at h
  cases htv : tx.valueUsd with
  | none =>
    rw [htv] at h
    dsimp only at h
    cases hta : tx.toAddr with
    | none => rw [hta] at h; exact Option.noConfusion h
    | some a =>
      rw [hta] at h
      dsimp only at h
      split_ifs at h
      all_goals
        first
          | exact Option.noConfusion h
          | exact builder_checkAddressCondition_allowed c a r h
  | some v =>
    rw [htv] at h
    dsimp only at h
    cases hcv : Builder.checkValueCondition c v with
    | some r0 =>
      rw [hcv] at h
      dsimp only at h
      injection h with h2
      subst h2
      exact builder_checkValueCondition_allowed c v r0 hcv
    | none =>
      rw [hcv] at h
      dsimp only at h
      cases hta : tx.toAddr with
      | none => rw [hta] at h; exact Option.noConfusion h
      | some a =>
        rw [hta] at h
        dsimp only at h
        split_ifs at h
        all_goals
          first
            | exact Option.noConfusion h
            | exact builder_checkAddressCondition_allowed c a r h

/-- A failing condition anywhere in the list makes the src condition
loop deny. -/
theorem builder_evalConditions_false (conds : List Condition) (tx : Tx)
    (c : Condition) (hc : c ∈ conds)
    (hf : Builder.checkCondition c tx ≠ none) :
    (Builder.evalConditions conds tx).allowed = false := by
  induction conds with
  | nil => cases hc
  | cons c0 rest ih =>
    unfold Builder.evalConditions
    cases h0 : Builder.checkCondition c0 tx with
    | some r => exact builder_checkCondition_allowed c0 tx r h0
    | none =>
      rcases List.mem_cons.mp hc with hceq | hcrest
      · subst hceq; exact absurd h0 hf
      · exact ih hcrest

/-- When every condition passes the src condition loop allows. -/
theorem builder_evalConditions_true (conds : List Condition) (tx : Tx)
    (hall : ∀ c ∈ conds, Builder.checkCondition c tx = none) :
    Builder.evalConditions conds tx = ⟨true, none⟩ := by
  induction conds with
  | nil => rfl
  | cons c0 rest ih =>
    unfold Builder.evalConditions
    rw [hall c0 (List.mem_cons_self c0 rest)]
    exact ih (fun c hc => hall c (List.mem_cons_of_mem c0 hc))

/-- Every early return of the part_005 VALUE block is a denial. -/
theorem server005_checkValueCondition_allowed (c : Condition) (v : ℚ)
    (r : Server005.VResult5)
    (h : Server005.checkValueCondition c v = some r) :
    r.allowed = false := by
  unfold Server005.checkValueCondition at h
  dsimp only at h
  split_ifs at h
  all_goals
    first
      | exact Option.noConfusion h
      | (injection h with h2; subst h2; rfl)

/-- Every early return of the part_005 TO_ADDRESS block is a denial. -/
theorem server005_checkAddressCondition_allowed (c : Condition)
    (a : String) (r : Server005.VResult5)
    (h : Server005.checkAddressCondition c a = some r) :
    r.allowed = false := by
  unfold Server005.checkAddressCondition at h
  dsimp only at h
  split_ifs at h
  all_goals
    first
      | exact Option.noConfusion h
      | (injection h with h2; subst h2; rfl)

/-- Every early return of the part_005 condition loop is a denial. -/
theorem server005_checkCondition_allowed (c : Condition) (tx : Tx)
    (r : Server005.VResult5) (h : Server005.checkCondition c tx = some r) :
    r.allowed = false := by
  unfold Server005.checkCondition at h
  cases htv : tx.valueUsd with
  | none =>
    rw [htv] at h
    dsimp only at h
    cases hta : tx.toAddr with
    | none => rw [hta] at h; exact Option.noConfusion h
    | some a =>
      rw [hta] at h
      dsimp only at h
      split_ifs at h
      all_goals
        first
          | exact Option.noConfusion h
          | exact server005_checkAddressCondition_allowed c a r h
  | some v =>
    rw [htv] at h
    dsimp only at h
    cases hcv : Server005.checkValueCondition c v with
    | some r0 =>
      rw [hcv] at h
      dsimp only at h
      injection h with h2
      subst h2
      exact server005_checkValueCondition_allowed c v r0 hcv
    | none =>
      rw [hcv] at h
      dsimp only at h
      cases hta : tx.toAddr with
      | none => rw [hta] at h; exact Option.noConfusion h
      | some a =>
        rw [hta] at h
        dsimp only at h
        split_ifs at h
        all_goals
          first
            | exact Option.noConfusion h
            | exact server005_checkAddressCondition_allowed c a r h

/-- A failing condition anywhere in the list makes the part_005
condition loop deny. -/
theorem server005_evalConditions_false (conds : List Condition) (tx : Tx)
    (c : Condition) (hc : c ∈ conds)
    (hf : Server005.checkCondition c tx ≠ none) :
    (Server005.evalConditions conds tx).allowed = false := by
  induction conds with
  | nil => cases hc
  | cons c0 rest ih =>
    unfold Server005.evalConditions
    cases h0 : Server005.checkCondition c0 tx with
    | some r => exact server005_checkCondition_allowed c0 tx r h0
    | none =>
      rcases List.mem_cons.mp hc with hceq | hcrest
      · subst hceq; exact absurd h0 hf
      · exact ih hcrest

/-- When every condition passes the part_005 condition loop allows. -/
theorem server005_evalConditions_true (conds : List Condition) (tx : Tx)
    (hall : ∀ c ∈ conds, Server005.checkCondition c tx = none) :
    Server005.evalConditions conds tx = ⟨true, none, none⟩ := by
  induction conds with
  | nil => rfl
  | cons c0 rest ih =>
    unfold Server005.evalConditions
    rw [hall c0 (List.mem_cons_self c0 rest)]
    exact ih (fun c hc => hall c (List.mem_cons_of_mem c0 hc))

end ConditionLemmas

section SkipLemmas

open Core

/-- A VALUE condition is skipped by the src loop when the transaction
carries no USD value. -/
theorem builder_checkCondition_value_skip (c : Condition) (tx : Tx)
    (hres : c.resource = "VALUE") (hv : tx.valueUsd = none) :
    Builder.checkCondition c tx = none := by
  unfold Builder.checkCondition
  rw [hv]
  dsimp only
  cases hta : tx.toAddr with
  | none => rfl
  | some a =>
    dsimp only
    split_ifs with he
    · simp [Builder.checkAddressCondition, hres]
    · rfl

/-- A TO_ADDRESS condition is skipped by the src loop when the
transaction recipient is absent or empty. -/
theorem builder_checkCondition_address_skip (c : Condition) (tx : Tx)
    (hres : c.resource = "TO_ADDRESS")
    (ht : jsStrTruthy tx.toAddr = false) :
    Builder.checkCondition c tx = none := by
  have hvc : ∀ v, Builder.checkValueCondition c v = none := by
    intro v
    simp [Builder.checkValueCondition, hres]
  unfold Builder.checkCondition
  cases htv : tx.valueUsd with
  | none =>
    dsimp only
    cases hta : tx.toAddr with
    | none => rfl
    | some a =>
      have hae : a.isEmpty = true := by
        rw [hta] at ht
        simpa [jsStrTruthy] using ht
      simp [hae]
  | some v =>
    dsimp only
    rw [hvc v]
    dsimp only
    cases hta : tx.toAddr with
    | none => rfl
    | some a =>
      have hae : a.isEmpty = true := by
        rw [hta] at ht
        simpa [jsStrTruthy] using ht
      simp [hae]

/-- A VALUE condition is skipped by the part_005 loop when the
transaction carries no USD value. -/
theorem server005_checkCondition_value_skip (c : Condition) (tx : Tx)
    (hres : c.resource = "VALUE") (hv : tx.valueUsd = none) :
    Server005.checkCondition c tx = none := by
  unfold Server005.checkCondition
  rw [hv]
  dsimp only
  cases hta : tx.toAddr with
  | none => rfl
  | some a =>
    dsimp only
    split_ifs with he
    · simp [Server005.checkAddressCondition, hres]
    · rfl

/-- A TO_ADDRESS condition is skipped by the part_005 loop when the
transaction recipient is absent or empty. -/
theorem server005_checkCondition_address_skip (c : Condition) (tx : Tx)
    (hres : c.resource = "TO_ADDRESS")
    (ht : jsStrTruthy tx.toAddr = false) :
    Server005.checkCondition c tx = none := by
  have hvc : ∀ v, Server005.checkValueCondition c v = none := by
    intro v
    simp [Server005.checkValueCondition, hres]
  unfold Server005.checkCondition
  cases htv : tx.valueUsd with
  | none =>
    dsimp only
    cases hta : tx.toAddr with
    | none => rfl
    | some a =>
      have hae : a.isEmpty = true := by
        rw [hta] at ht
        simpa [jsStrTruthy] using ht
      simp [hae]
  | some v =>
    dsimp only
    rw [hvc v]
    dsimp only
    cases hta : tx.toAddr with
    | none => rfl
    | some a =>
      have hae : a.isEmpty = true := by
        rw [hta] at ht
        simpa [jsStrTruthy] using ht
      simp [hae]

/-- A VALUE LESS_THAN condition with numeric reference L fails in the
src loop on a transaction value at or above L. -/
theorem builder_checkCondition_ltnum_fail (tx : Tx) (v L : ℚ)
    (hv : tx.valueUsd = some v) (hge : L ≤ v) :
    Builder.checkCondition
      ⟨"STATIC", "VALUE", .LESS_THAN, .num L⟩ tx ≠ none := by
  unfold Builder.checkCondition
  rw [hv]
  simp [Builder.checkValueCondition, refToNum, jsGeLim, hge]

/-- A VALUE LESS_THAN condition with numeric reference L passes in the
src loop on a transaction value strictly below L. -/
theorem builder_checkCondition_ltnum_pass (tx : Tx) (v L : ℚ)
    (hv : tx.valueUsd = some v) (hlt : v < L) :
    Builder.checkCondition
      ⟨"STATIC", "VALUE", .LESS_THAN, .num L⟩ tx = none := by
  unfold Builder.checkCondition
  rw [hv]
  have hnge : ¬(L ≤ v) := not_le.mpr hlt
  dsimp only
  rw [show Builder.checkValueCondition
      ⟨"STATIC", "VALUE", .LESS_THAN, .num L⟩ v = none by
    simp [Builder.checkValueCondition, refToNum, jsGeLim, hnge]]
  dsimp only
  cases hta : tx.toAddr with
  | none => rfl
  | some a =>
    dsimp only
    split_ifs with he
    · simp [Builder.checkAddressCondition]
    · rfl

/-- A VALUE LESS_THAN condition with numeric reference L fails in the
part_005 loop on a transaction value at or above L. -/
theorem server005_checkCondition_ltnum_fail (tx : Tx) (v L : ℚ)
    (hv : tx.valueUsd = some v) (hge : L ≤ v) :
    Server005.checkCondition
      ⟨"STATIC", "VALUE", .LESS_THAN, .num L⟩ tx ≠ none := by
  unfold Server005.checkCondition
  rw [hv]
  simp [Server005.checkValueCondition, refToNum, jsGeLim, hge]

/-- A VALUE LESS_THAN condition with numeric reference L passes in the
part_005 loop on a transaction value strictly below L. -/
theorem server005_checkCondition_ltnum_pass (tx : Tx) (v L : ℚ)
    (hv : tx.valueUsd = some v) (hlt : v < L) :
    Server005.checkCondition
      ⟨"STATIC", "VALUE", .LESS_THAN, .num L⟩ tx = none := by
  unfold Server005.checkCondition
  rw [hv]
  have hnge : ¬(L ≤ v) := not_le.mpr hlt
  dsimp only
  rw [show Server005.checkValueCondition
      ⟨"STATIC", "VALUE", .LESS_THAN, .num L⟩ v = none by
    simp [Server005.checkValueCondition, refToNum, jsGeLim, hnge]]
  dsimp only
  cases hta : tx.toAddr with
  | none => rfl
  | some a =>
    dsimp only
    split_ifs with he
    · simp [Server005.checkAddressCondition]
    · rfl

/-- Any matching DENY permission anywhere in the document makes the
part_003 evaluator deny, independently of position and of every ALLOW
permission. -/
theorem Builder003.validate_deny (policy : Policy) (tx : Tx)
    (p : Permission) (hp : p ∈ Core.allPermissions policy)
    (hc : p.chainId = tx.chainId) (hty : p.type = tx.type)
    (he : p.effect = Effect.DENY) :
    (Builder003.validateAgainstParaPolicy policy tx).allowed = false := by
  unfold Builder003.validateAgainstParaPolicy
  cases hf : (Core.allPermissions policy).find?
      (fun q => decide (q.chainId = tx.chainId ∧ q.type = tx.type ∧
        q.effect = Effect.DENY)) with
  | some q => rfl
  | none =>
    exfalso
    have hnone := List.find?_eq_none.mp hf p hp
    apply hnone
    simp [hc, hty, he]

end SkipLemmas

section MinFoldLemmas

open Core

/-- Folding accMin from a some seed computes the running minimum. -/
theorem MinFold.foldl_accMin_some (l : List ℚ) (x : ℚ) :
    l.foldl MinFold.accMin (some x) = some (l.foldl min x) := by
  induction l generalizing x with
  | nil => rfl
  | cons y l ih =>
    rw [List.foldl_cons, List.foldl_cons]
    have hstep : MinFold.accMin (some x) y = some (min x y) := by
      unfold MinFold.accMin
      rcases lt_or_le y x with h | h
      · simp [if_pos h, min_eq_right h.le]
      · simp [if_neg (not_lt.mpr h), min_eq_left h]
    rw [hstep]
    exact ih (min x y)

/-- Folding accMin from none computes the list minimum. -/
theorem MinFold.foldl_accMin_none (l : List ℚ) :
    l.foldl MinFold.accMin none = l.min? := by
  cases l with
  | nil => rfl
  | cons a l =>
    rw [List.foldl_cons]
    show l.foldl MinFold.accMin (some a) = (a :: l).min?
    rw [MinFold.foldl_accMin_some]
    rfl

/-- The inner condition fold of getUsdLimitFromPolicy is the accMin fold
over the extracted numeric values. -/
theorem MinFold.inner_eq (conds : List Condition) (m : Option ℚ) :
    conds.foldl
      (fun m c =>
        if c.resource = "VALUE" ∧
            (c.comparator = Comparator.LESS_THAN ∨
              c.comparator = Comparator.EQUALS) then
          match refToNum c.reference with
          | some v =>
            match m with
            | none => some v
            | some cur => if v < cur then some v else some cur
          | none => m
        else m) m
    = (conds.filterMap MinFold.extractValue).foldl MinFold.accMin m := by
  induction conds generalizing m with
  | nil => rfl
  | cons c rest ih =>
    rw [List.foldl_cons, List.filterMap_cons]
    by_cases g : c.resource = "VALUE" ∧
        (c.comparator = Comparator.LESS_THAN ∨
          c.comparator = Comparator.EQUALS)
    · rw [if_pos g]
      have hx : MinFold.extractValue c = refToNum c.reference := by
        unfold MinFold.extractValue
        rw [if_pos g]
      cases hr : refToNum c.reference with
      | some v =>
        rw [hx, hr]
        dsimp only
        rw [List.foldl_cons]
        exact ih (MinFold.accMin m v)
      | none =>
        rw [hx, hr]
        dsimp only
        exact ih m
    · rw [if_neg g]
      have hx : MinFold.extractValue c = none := by
        unfold MinFold.extractValue
        rw [if_neg g]
      rw [hx]
      dsimp only
      exact ih m

/-- The permission fold of getUsdLimitFromPolicy is the accMin fold over
the concatenated extracted values of all ALLOW TRANSFER permissions. -/
theorem MinFold.outer_eq (perms : List Permission) (m : Option ℚ) :
    perms.foldl
      (fun minLimit p =>
        if p.type = ActionType.TRANSFER ∧ p.effect = Effect.ALLOW then
          p.conditions.foldl
            (fun m c =>
              if c.resource = "VALUE" ∧
                  (c.comparator = Comparator.LESS_THAN ∨
                    c.comparator = Comparator.EQUALS) then
                match refToNum c.reference with
                | some v =>
                  match m with
                  | none => some v
                  | some cur => if v < cur then some v else some cur
                | none => m
              else m)
            minLimit
        else minLimit) m
    = ((perms.filter
          (fun p => decide (p.type = ActionType.TRANSFER ∧
            p.effect = Effect.ALLOW))).flatMap
        (fun p => p.conditions.filterMap MinFold.extractValue)).foldl
        MinFold.accMin m := by
  induction perms generalizing m with
  | nil => rfl
  | cons p rest ih =>
    rw [List.foldl_cons, List.filter_cons]
    by_cases tp : p.type = ActionType.TRANSFER ∧ p.effect = Effect.ALLOW
    · rw [if_pos tp, MinFold.inner_eq]
      rw [if_pos (by simpa using tp)]
      rw [List.flatMap_cons, List.foldl_append]
      exact ih _
    · rw [if_neg tp]
      rw [if_neg (by simpa using tp)]
      exact ih m

end MinFoldLemmas

section ClaimTheorems

open Core

/-- C1 counterexample: in a document whose scope lists a matching ALLOW
TRANSFER permission before a matching DENY TRANSFER permission on the
same chain, the src validateAgainstParaPolicy and the part_005
validateTransaction both return allowed, although a DENY for the pair
exists — the claimed order-independence fails for these evaluators. -/
theorem c1_counterexample :
    (Builder.validateAgainstParaPolicy Fixtures.c1Doc
      Fixtures.c1Tx).allowed = true ∧
    (Server005.validateTransaction Fixtures.c1Doc
      Fixtures.c1Tx).allowed = true ∧
    ((Core.allPermissions Fixtures.c1Doc).any
      (fun p => decide (p.chainId = Fixtures.c1Tx.chainId ∧
        p.type = Fixtures.c1Tx.type ∧
        p.effect = Effect.DENY)) = true) ∧
    ((Core.allPermissions Fixtures.c1Doc).any
      (fun p => decide (p.chainId = Fixtures.c1Tx.chainId ∧
        p.type = Fixtures.c1Tx.type ∧
        p.effect = Effect.ALLOW)) = true) := by
  refine ⟨by decide, by decide, by decide, by decide⟩

/-- C1 amended: the part_003 evaluator scans DENY permissions first, so
any matching DENY forces allowed equal false regardless of document
order and of the conditions of any ALLOW permission; for the src
evaluator and the part_005 validateTransaction the first matching
permission decides, so the denial is guaranteed exactly when that first
match is the DENY. -/
theorem c1_amended :
    (∀ (policy : Policy) (tx : Tx) (p : Permission),
      p ∈ Core.allPermissions policy → p.chainId = tx.chainId →
      p.type = tx.type → p.effect = Effect.DENY →
      (Builder003.validateAgainstParaPolicy policy tx).allowed = false) ∧
    (∀ (policy : Policy) (tx : Tx) (p : Permission),
      Core.firstMatch (Core.allPermissions policy) tx = some p →
      p.effect = Effect.DENY →
      (Builder.validateAgainstParaPolicy policy tx).allowed = false ∧
      (Server005.validateTransaction policy tx).allowed = false) := by
  constructor
  · exact fun policy tx p hp hc hty he =>
      Builder003.validate_deny policy tx p hp hc hty he
  · intro policy tx p hfm he
    constructor
    · rw [builder_validate_eq_of_firstMatch policy tx p hfm, if_pos he]
      rfl
    · rw [server005_validate_eq_of_firstMatch policy tx p hfm, if_pos he]
      rfl

/-- C1 witness: the part_003 evaluator denies even with the DENY listed
second, and the src and part_005 evaluators deny when the DENY is
listed first. -/
theorem c1_witness :
    (Builder003.validateAgainstParaPolicy Fixtures.c1Doc
      Fixtures.c1Tx).allowed = false ∧
    (Builder.validateAgainstParaPolicy Fixtures.c1DocDenyFirst
      Fixtures.c1Tx).allowed = false ∧
    (Server005.validateTransaction Fixtures.c1DocDenyFirst
      Fixtures.c1Tx).allowed = false := by
  refine ⟨c1_amended.1 Fixtures.c1Doc Fixtures.c1Tx
    Fixtures.denyTransferBase (by decide) rfl rfl rfl, ?_, ?_⟩
  · exact (c1_amended.2 Fixtures.c1DocDenyFirst Fixtures.c1Tx
      Fixtures.denyTransferBase (by decide) rfl).1
  · exact (c1_amended.2 Fixtures.c1DocDenyFirst Fixtures.c1Tx
      Fixtures.denyTransferBase (by decide) rfl).2

/-- C5 counterexample: the part_005 server buildParaPolicy stamps
validFrom with the clock, so identical options at two different times
give different documents — the output is not free of hidden
timestamps. -/
theorem c5_counterexample :
    Server005.buildParaPolicy Fixtures.c5Opts5 0 ≠
      Server005.buildParaPolicy Fixtures.c5Opts5 1 := by
  decide

/-- C5 amended: the client-side compilers (src and part_003) are pure
and carry no hidden timestamp — validFrom and validTo of the output are
exactly the options fields — while the part_005 server compiler always
sets validFrom to the current clock value. -/
theorem c5_amended :
    ∀ (o : Builder.PolicyBuildOptions) (o3 : Builder003.PolicyBuildOptions)
      (o5 : Server005.BuildOptions) (now : ℤ),
      (Builder.buildParaPolicy o).validFrom = o.validFrom ∧
      (Builder.buildParaPolicy o).validTo = o.validTo ∧
      (Builder003.buildParaPolicy o3).validFrom = o3.validFrom ∧
      (Builder003.buildParaPolicy o3).validTo = o3.validTo ∧
      (Server005.buildParaPolicy o5 now).validFrom = some now := by
  intro o o3 o5 now
  exact ⟨rfl, rfl, rfl, rfl, rfl⟩

/-- C6 counterexample: the compiler does not fail on a zero usdLimit or
on a malformed address — it returns a normal permission, silently
dropping the VALUE condition and embedding the malformed address. -/
theorem c6_counterexample :
    Builder003.buildTransferPermission "8453" (some 0)
        (some ["not-an-address"]) =
      ⟨Effect.ALLOW, "8453", ActionType.TRANSFER,
        [⟨"STATIC", "TO_ADDRESS", Comparator.INCLUDED_IN,
          Reference.strList ["not-an-address"]⟩]⟩ ∧
    Builder.buildTransferPermission "8453" (some 0) =
      ⟨Effect.ALLOW, "8453", ActionType.TRANSFER, []⟩ := by
  refine ⟨by decide, by decide⟩

/-- C6 amended: the compilers perform no input validation and never
fail: a usdLimit that is not strictly positive yields the same transfer
permission as no usdLimit at all (no VALUE condition), and allowlist
entries are lowercased and embedded with no format check. -/
theorem c6_amended :
    ∀ (chain : String) (l : ℚ) (lim : Option ℚ) (addrs : List String),
      (l ≤ 0 →
        Builder003.buildTransferPermission chain (some l) (some addrs) =
          Builder003.buildTransferPermission chain none (some addrs)) ∧
      (l ≤ 0 →
        Builder.buildTransferPermission chain (some l) =
          Builder.buildTransferPermission chain none) ∧
      (addrs ≠ [] →
        (⟨"STATIC", "TO_ADDRESS", Comparator.INCLUDED_IN,
          Reference.strList (addrs.map jsToLower)⟩ : Condition) ∈
          (Builder003.buildTransferPermission chain lim
            (some addrs)).conditions) := by
  intro chain l lim addrs
  refine ⟨?_, ?_, ?_⟩
  · intro h
    unfold Builder003.buildTransferPermission
    simp [not_lt.mpr h]
  · intro h
    unfold Builder.buildTransferPermission
    simp [not_lt.mpr h]
  · intro h
    unfold Builder003.buildTransferPermission
    simp [h]

/-- C6 witness: a zero limit compiles like an absent limit, and a
malformed allowlist entry is embedded verbatim. -/
theorem c6_witness :
    Builder003.buildTransferPermission "8453" (some 0)
        (some ["not-an-address"]) =
      Builder003.buildTransferPermission "8453" none
        (some ["not-an-address"]) ∧
    (⟨"STATIC", "TO_ADDRESS", Comparator.INCLUDED_IN,
      Reference.strList (["not-an-address"].map jsToLower)⟩ : Condition) ∈
      (Builder003.buildTransferPermission "8453" none
        (some ["not-an-address"])).conditions := by
  obtain ⟨h1, h2, h3⟩ := c6_amended "8453" 0 none ["not-an-address"]
  exact ⟨h1 le_rfl, h3 (by decide)⟩

/-- C7 counterexample: on a document holding LESS_THAN limits 20 and 5
in that order, the part_005 getUsdLimitFromPolicy returns 20, the first
reference found, not the minimum 5 returned by the src variant and
demanded by the claim. -/
theorem c7_counterexample :
    Server005.getUsdLimitFromPolicy Fixtures.c7Doc = some 20 ∧
    Builder.getUsdLimitFromPolicy Fixtures.c7Doc = some 5 ∧
    Spec.usdLimit Fixtures.c7Doc = some 5 ∧ (20 : ℚ) ≠ 5 := by
  refine ⟨by decide, by decide, by decide, by decide⟩

/-- C7 amended: the src getUsdLimitFromPolicy and its textually
identical part_003 copy return exactly the minimum numeric reference
over all LESS_THAN or EQUALS VALUE conditions of ALLOW TRANSFER
permissions, or none when no such numeric reference exists; the
part_005 variant instead returns the first LESS_THAN reference. -/
theorem c7_amended :
    ∀ policy : Policy,
      Builder.getUsdLimitFromPolicy policy = Spec.usdLimit policy ∧
      Builder003.getUsdLimitFromPolicy policy = Spec.usdLimit policy := by
  intro policy
  have h : Builder.getUsdLimitFromPolicy policy = Spec.usdLimit policy := by
    unfold Builder.getUsdLimitFromPolicy
    rw [MinFold.outer_eq, MinFold.foldl_accMin_none]
    rfl
  exact ⟨h, h⟩

/-- C9: when the policy record is inactive the client-side enforcement
validateTransaction rejects every transaction with the POLICY_INACTIVE
rule, before any chain, blocked-action or USD-limit check runs. -/
theorem c9_policy_inactive_gate :
    ∀ (tx : Enforcement.TransactionRequest)
      (policy : Enforcement.PermissionPolicy),
      policy.isActive = false →
      Enforcement.validateTransaction tx policy =
        ⟨false, some "Permission policy is not active",
          some "POLICY_INACTIVE"⟩ := by
  intro tx policy h
  unfold Enforcement.validateTransaction
  rw [h]
  rfl

/-- C9 witness: a concrete inactive policy rejects a transaction that
every other check would have allowed. -/
theorem c9_witness :
    Enforcement.validateTransaction Fixtures.c9Tx Fixtures.c9Policy =
      ⟨false, some "Permission policy is not active",
        some "POLICY_INACTIVE"⟩ :=
  c9_policy_inactive_gate Fixtures.c9Tx Fixtures.c9Policy rfl

end ClaimTheorems

section ClaimTheorems2

open Core

/-- C2: when the first matching permission is an ALLOW carrying a VALUE
LESS_THAN condition with numeric reference L, a transaction of exactly
L is rejected by both the src and the part_005 evaluators, and a
transaction strictly below L whose other conditions all pass is
allowed — the limit is exclusive. -/
theorem c2_limit_exclusive :
    ∀ (policy : Policy) (tx : Tx) (p : Permission) (L : ℚ),
      Core.firstMatch (Core.allPermissions policy) tx = some p →
      p.effect = Effect.ALLOW →
      (⟨"STATIC", "VALUE", Comparator.LESS_THAN, Reference.num L⟩ :
        Condition) ∈ p.conditions →
      ((tx.valueUsd = some L →
          (Builder.validateAgainstParaPolicy policy tx).allowed = false ∧
          (Server005.validateTransaction policy tx).allowed = false) ∧
       (∀ v : ℚ, tx.valueUsd = some v → v < L →
          (∀ c ∈ p.conditions,
            Builder.checkCondition c tx = none ∨
            c = ⟨"STATIC", "VALUE", Comparator.LESS_THAN,
              Reference.num L⟩) →
          (Builder.validateAgainstParaPolicy policy tx).allowed = true) ∧
       (∀ v : ℚ, tx.valueUsd = some v → v < L →
          (∀ c ∈ p.conditions,
            Server005.checkCondition c tx = none ∨
            c = ⟨"STATIC", "VALUE", Comparator.LESS_THAN,
              Reference.num L⟩) →
          (Server005.validateTransaction policy tx).allowed = true)) := by
  intro policy tx p L hfm hal hmem
  have hnd : ¬(p.effect = Effect.DENY) := by
    rw [hal]
    simp
  refine ⟨?_, ?_, ?_⟩
  · intro hv
    constructor
    · rw [builder_validate_eq_of_firstMatch policy tx p hfm, if_neg hnd]
      exact builder_evalConditions_false p.conditions tx _ hmem
        (builder_checkCondition_ltnum_fail tx L L hv le_rfl)
    · rw [server005_validate_eq_of_firstMatch policy tx p hfm, if_neg hnd]
      exact server005_evalConditions_false p.conditions tx _ hmem
        (server005_checkCondition_ltnum_fail tx L L hv le_rfl)
  · intro v hv hlt hothers
    rw [builder_validate_eq_of_firstMatch policy tx p hfm, if_neg hnd]
    rw [builder_evalConditions_true p.conditions tx ?_]
    intro c hc
    rcases hothers c hc with h | h
    · exact h
    · subst h
      exact builder_checkCondition_ltnum_pass tx v L hv hlt
  · intro v hv hlt hothers
    rw [server005_validate_eq_of_firstMatch policy tx p hfm, if_neg hnd]
    rw [server005_evalConditions_true p.conditions tx ?_]
    intro c hc
    rcases hothers c hc with h | h
    · exact h
    · subst h
      exact server005_checkCondition_ltnum_pass tx v L hv hlt

/-- C2 witness: against the compiled 15 USD limit document, a transfer
of exactly 15 is rejected and a transfer of 14 is allowed, by both
evaluators. -/
theorem c2_witness :
    (Builder.validateAgainstParaPolicy Fixtures.c2Doc
      Fixtures.c2TxAt).allowed = false ∧
    (Server005.validateTransaction Fixtures.c2Doc
      Fixtures.c2TxAt).allowed = false ∧
    (Builder.validateAgainstParaPolicy Fixtures.c2Doc
      Fixtures.c2TxBelow).allowed = true ∧
    (Server005.validateTransaction Fixtures.c2Doc
      Fixtures.c2TxBelow).allowed = true := by
  have hAt := c2_limit_exclusive Fixtures.c2Doc Fixtures.c2TxAt
    Fixtures.c2Perm 15 (by decide) rfl (by decide)
  have hBel := c2_limit_exclusive Fixtures.c2Doc Fixtures.c2TxBelow
    Fixtures.c2Perm 15 (by decide) rfl (by decide)
  exact ⟨(hAt.1 rfl).1, (hAt.1 rfl).2,
    hBel.2.1 14 rfl (by decide) (by decide),
    hBel.2.2 14 rfl (by decide) (by decide)⟩

/-- C8: on the first matching ALLOW permission, a condition whose
required transaction input is absent — a VALUE condition with no
valueUsd, a TO_ADDRESS condition with no recipient — is skipped rather
than failed, so the transaction is allowed whenever every remaining
evaluable condition passes; this holds for both the src evaluator and
the part_005 validateTransaction. -/
theorem c8_absent_input_skipped :
    ∀ (policy : Policy) (tx : Tx) (p : Permission),
      Core.firstMatch (Core.allPermissions policy) tx = some p →
      p.effect = Effect.ALLOW →
      ((∀ c ∈ p.conditions,
          (c.resource = "VALUE" ∧ tx.valueUsd = none) ∨
          (c.resource = "TO_ADDRESS" ∧ jsStrTruthy tx.toAddr = false) ∨
          Builder.checkCondition c tx = none) →
        (Builder.validateAgainstParaPolicy policy tx).allowed = true) ∧
      ((∀ c ∈ p.conditions,
          (c.resource = "VALUE" ∧ tx.valueUsd = none) ∨
          (c.resource = "TO_ADDRESS" ∧ jsStrTruthy tx.toAddr = false) ∨
          Server005.checkCondition c tx = none) →
        (Server005.validateTransaction policy tx).allowed = true) := by
  intro policy tx p hfm hal
  have hnd : ¬(p.effect = Effect.DENY) := by
    rw [hal]
    simp
  constructor
  · intro hall
    rw [builder_validate_eq_of_firstMatch policy tx p hfm, if_neg hnd]
    rw [builder_evalConditions_true p.conditions tx ?_]
    intro c hc
    rcases hall c hc with ⟨hres, hv⟩ | ⟨hres, ht⟩ | h
    · exact builder_checkCondition_value_skip c tx hres hv
    · exact builder_checkCondition_address_skip c tx hres ht
    · exact h
  · intro hall
    rw [server005_validate_eq_of_firstMatch policy tx p hfm, if_neg hnd]
    rw [server005_evalConditions_true p.conditions tx ?_]
    intro c hc
    rcases hall c hc with ⟨hres, hv⟩ | ⟨hres, ht⟩ | h
    · exact server005_checkCondition_value_skip c tx hres hv
    · exact server005_checkCondition_address_skip c tx hres ht
    · exact h

/-- C8 witness: a transaction with neither valueUsd nor recipient is
allowed against a permission carrying both a VALUE and a TO_ADDRESS
condition, by both evaluators. -/
theorem c8_witness :
    (Builder.validateAgainstParaPolicy Fixtures.c8Doc
      Fixtures.c8Tx).allowed = true ∧
    (Server005.validateTransaction Fixtures.c8Doc
      Fixtures.c8Tx).allowed = true := by
  have h := c8_absent_input_skipped Fixtures.c8Doc Fixtures.c8Tx
    Fixtures.c8Perm (by decide) rfl
  exact ⟨h.1 (by decide), h.2 (by decide)⟩

end ClaimTheorems2

section ClaimTheorems4

open Core

/-- C4 counterexample: the src evaluator folds only the transaction
recipient to lowercase, not the stored allowlist entries, so a
transaction to 0xABC against an allowlist storing 0xABC is denied even
though folding both sides (as the claim asserts) makes them equal. -/
theorem c4_counterexample :
    (Builder.validateAgainstParaPolicy Fixtures.c4Doc
      Fixtures.c4Tx).allowed = false ∧
    jsToLower "0xABC" ∈ ["0xABC"].map jsToLower := by
  refine ⟨by decide, by decide⟩

/-- C4 amended: the part_005 validateTransaction folds both the
recipient and every stored entry to lowercase, so its allowlist test is
fully case-insensitive; the src validateAgainstParaPolicy folds only
the recipient, so it admits exactly the recipients whose lowercase form
appears verbatim among the stored entries (which the part_003 compiler
stores in lowercase). -/
theorem c4_amended :
    ∀ (chain : String) (refs : List String) (a : String),
      a.isEmpty = false →
      (((Server005.validateTransaction (Fixtures.allowlistDoc chain refs)
          ⟨some a, chain, none, ActionType.TRANSFER⟩).allowed = true) ↔
        jsToLower a ∈ refs.map jsToLower) ∧
      (((Builder.validateAgainstParaPolicy
          (Fixtures.allowlistDoc chain refs)
          ⟨some a, chain, none, ActionType.TRANSFER⟩).allowed = true) ↔
        jsToLower a ∈ refs) := by
  intro chain refs a ha
  have hfm : Core.firstMatch
      (Core.allPermissions (Fixtures.allowlistDoc chain refs))
      ⟨some a, chain, none, ActionType.TRANSFER⟩ =
      some ⟨Effect.ALLOW, chain, ActionType.TRANSFER,
        [⟨"STATIC", "TO_ADDRESS", Comparator.INCLUDED_IN,
          Reference.strList refs⟩]⟩ := by
    simp [Fixtures.allowlistDoc, Fixtures.singleScopeDoc,
      Core.allPermissions, Core.firstMatch]
  constructor
  · rw [server005_validate_eq_of_firstMatch _ _ _ hfm, if_neg (by simp)]
    by_cases hm : jsToLower a ∈ refs.map jsToLower
    · have hcc : Server005.checkCondition
          ⟨"STATIC", "TO_ADDRESS", Comparator.INCLUDED_IN,
            Reference.strList refs⟩
          ⟨some a, chain, none, ActionType.TRANSFER⟩ = none := by
        unfold Server005.checkCondition
        simp [Server005.checkAddressCondition, Server005.refAsLowerList,
          ha, hm]
      unfold Server005.evalConditions
      rw [hcc]
      simp [Server005.evalConditions, hm]
    · have hcc : Server005.checkCondition
          ⟨"STATIC", "TO_ADDRESS", Comparator.INCLUDED_IN,
            Reference.strList refs⟩
          ⟨some a, chain, none, ActionType.TRANSFER⟩ =
          some ⟨false, some "Recipient address is not in the allowed list",
            some "address_whitelist"⟩ := by
        unfold Server005.checkCondition
        simp [Server005.checkAddressCondition, Server005.refAsLowerList,
          ha, hm]
      unfold Server005.evalConditions
      rw [hcc]
      simp [hm]
  · rw [builder_validate_eq_of_firstMatch _ _ _ hfm, if_neg (by simp)]
    by_cases hm : jsToLower a ∈ refs
    · have hcc : Builder.checkCondition
          ⟨"STATIC", "TO_ADDRESS", Comparator.INCLUDED_IN,
            Reference.strList refs⟩
          ⟨some a, chain, none, ActionType.TRANSFER⟩ = none := by
        unfold Builder.checkCondition
        simp [Builder.checkAddressCondition, Core.refAsList, ha, hm]
      unfold Builder.evalConditions
      rw [hcc]
      simp [Builder.evalConditions, hm]
    · have hcc : Builder.checkCondition
          ⟨"STATIC", "TO_ADDRESS", Comparator.INCLUDED_IN,
            Reference.strList refs⟩
          ⟨some a, chain, none, ActionType.TRANSFER⟩ =
          some ⟨false,
            some "Recipient address is not in the allowed list"⟩ := by
        unfold Builder.checkCondition
        simp [Builder.checkAddressCondition, Core.refAsList, ha, hm]
      unfold Builder.evalConditions
      rw [hcc]
      simp [hm]

/-- C4 witness: a mixed-case recipient against a lowercase allowlist is
allowed by both evaluators. -/
theorem c4_witness :
    (Server005.validateTransaction (Fixtures.allowlistDoc "8453" ["0xabc"])
      ⟨some "0xABC", "8453", none, ActionType.TRANSFER⟩).allowed = true ∧
    (Builder.validateAgainstParaPolicy
      (Fixtures.allowlistDoc "8453" ["0xabc"])
      ⟨some "0xABC", "8453", none, ActionType.TRANSFER⟩).allowed = true := by
  have h := c4_amended "8453" ["0xabc"] "0xABC" (by decide)
  exact ⟨h.1.mpr (by decide), h.2.mpr (by decide)⟩

end ClaimTheorems4

section ClaimTheorems3

open Core

/-- Mapping the chainId projection over permissions built one per chain
recovers the chain list. -/
theorem map_chainId_comp (l : List String) {f : String → Permission}
    (h : ∀ c, (f c).chainId = c) :
    l.map (Permission.chainId ∘ f) = l := by
  rw [show Permission.chainId ∘ f = id from funext fun c => h c,
    List.map_id]

/-- C3 counterexample: the src and part_005 compilers never emit any
DENY SMART_CONTRACT permission, for a concrete input, so the claimed
always-present DENY SMART_CONTRACT scope is missing. -/
theorem c3_counterexample :
    ((Core.allPermissions (Builder.buildParaPolicy
        Fixtures.c3OptsB)).filter
      (fun p => decide (p.effect = Effect.DENY ∧
        p.type = ActionType.SMART_CONTRACT))) = [] ∧
    ((Core.allPermissions (Server005.buildParaPolicy
        Fixtures.c3Opts5 0)).filter
      (fun p => decide (p.effect = Effect.DENY ∧
        p.type = ActionType.SMART_CONTRACT))) = [] := by
  refine ⟨by decide, by decide⟩

/-- C3 amended: the part_003 compiler always emits a required scope of
DENY DEPLOY_CONTRACT and a required scope of DENY SMART_CONTRACT
permissions on its one resolved chain; the src and part_005 compilers
always emit a required DENY DEPLOY_CONTRACT scope with one permission
per resolved chain but no DENY SMART_CONTRACT scope; and every DENY
permission any of the three compilers produces carries an empty
condition sequence. -/
theorem c3_amended :
    ∀ (o3 : Builder003.PolicyBuildOptions)
      (o : Builder.PolicyBuildOptions)
      (o5 : Server005.BuildOptions) (now : ℤ),
      ((Builder003.buildParaPolicy o3).scopes.any
        (Spec.isDenyScopeFor ActionType.DEPLOY_CONTRACT
          [Core.BASE_CHAIN_ID]) = true) ∧
      ((Builder003.buildParaPolicy o3).scopes.any
        (Spec.isDenyScopeFor ActionType.SMART_CONTRACT
          [Core.BASE_CHAIN_ID]) = true) ∧
      ((Builder.buildParaPolicy o).scopes.any
        (Spec.isDenyScopeFor ActionType.DEPLOY_CONTRACT
          (Builder.allowedChainsOf o)) = true) ∧
      ((Server005.buildParaPolicy o5 now).scopes.any
        (Spec.isDenyScopeFor ActionType.DEPLOY_CONTRACT
          (Server005.allowedChainsOf o5)) = true) ∧
      ((Core.allPermissions (Builder003.buildParaPolicy o3)).all
        (fun p => decide (p.effect = Effect.DENY →
          p.conditions = [])) = true) ∧
      ((Core.allPermissions (Builder.buildParaPolicy o)).all
        (fun p => decide (p.effect = Effect.DENY →
          p.conditions = [])) = true) ∧
      ((Core.allPermissions (Server005.buildParaPolicy o5 now)).all
        (fun p => decide (p.effect = Effect.DENY →
          p.conditions = [])) = true) := by
  intro o3 o o5 now
  refine ⟨?_, ?_, ?_, ?_, ?_, ?_, ?_⟩
  · simp [Builder003.buildParaPolicy, Spec.isDenyScopeFor,
      Builder003.buildDenyDeployPermission,
      Builder003.buildDenySmartContractPermission,
      Builder003.buildTransferPermission, Core.BASE_CHAIN_ID,
      List.any_cons]
  · simp [Builder003.buildParaPolicy, Spec.isDenyScopeFor,
      Builder003.buildDenyDeployPermission,
      Builder003.buildDenySmartContractPermission,
      Builder003.buildTransferPermission, Core.BASE_CHAIN_ID,
      List.any_cons]
  · simp [Builder.buildParaPolicy, Spec.isDenyScopeFor,
      Builder.buildDenyDeployPermission,
      Builder.buildSignMessagePermission,
      Builder.buildTransferPermission, List.any_cons, List.map_map,
      Function.comp, List.all_map]
    exact Or.inr (map_chainId_comp _ (fun c => rfl))
  · simp [Server005.buildParaPolicy, Spec.isDenyScopeFor,
      List.any_cons, List.map_map, Function.comp, List.all_map]
    exact Or.inr (map_chainId_comp _ (fun c => rfl))
  · simp [Builder003.buildParaPolicy, Core.allPermissions,
      Builder003.buildDenyDeployPermission,
      Builder003.buildDenySmartContractPermission,
      Builder003.buildTransferPermission]
  · simp [Builder.buildParaPolicy, Core.allPermissions,
      Builder.buildDenyDeployPermission,
      Builder.buildSignMessagePermission,
      Builder.buildTransferPermission, List.all_map, Function.comp,
      List.all_append]
  · simp [Server005.buildParaPolicy, Core.allPermissions,
      List.all_map, Function.comp, List.all_append]

/-- C10: every document compiled by the src buildParaPolicy or the
part_005 server buildParaPolicy contains a sign_messages scope, marked
not required, holding one unconditioned ALLOW SIGN_MESSAGE permission
per resolved chain — an unrestricted message-signing grant on every
allowed chain. -/
theorem c10_sign_messages_scope :
    ∀ (o : Builder.PolicyBuildOptions) (o5 : Server005.BuildOptions)
      (now : ℤ),
      ((Builder.buildParaPolicy o).scopes.any
        (Spec.isSignMessagesScopeFor (Builder.allowedChainsOf o)) =
          true) ∧
      ((Server005.buildParaPolicy o5 now).scopes.any
        (Spec.isSignMessagesScopeFor (Server005.allowedChainsOf o5)) =
          true) := by
  intro o o5 now
  constructor
  · simp [Builder.buildParaPolicy, Spec.isSignMessagesScopeFor,
      Builder.buildSignMessagePermission, List.any_cons, List.map_map,
      Function.comp, List.all_map]
    exact map_chainId_comp _ (fun c => rfl)
  · simp [Server005.buildParaPolicy, Spec.isSignMessagesScopeFor,
      List.any_cons, List.map_map, Function.comp, List.all_map]
    exact map_chainId_comp _ (fun c => rfl)

end ClaimTheorems3
